import Mathlib

/-!
Verification of the Pylot demo script (src/Pylot_demo.py).

The script is a flat, sequential Python program.  We embed it shallowly:
each top-level statement becomes a function on an explicit state, and the
whole script is the sequential composition of those functions.  A raised
exception (the only one possible is the division by zero at line 24)
aborts the remainder of the script, carrying the state reached so far.

Observable effects are recorded as a trace of events: writes to standard
output, sleeps, and calls into the plotting library (figure, plot,
fill_between, show).  The numeric arguments of the plotting calls are
floating-point curves built from pseudo-random data; no claim concerns
their values, only the control flow and the number of calls, so the
events carry no numeric payload.
-/

/-- The only runtime error the script can raise. -/
inductive PyError where
  | zeroDivisionError
  deriving Repr, DecidableEq

/-- Observable events of the script: a write to stdout, a sleep of a
given number of seconds, and the plotting-library calls. -/
inductive Ev where
  | out (s : String)
  | sleep (secs : Nat)
  | figure
  | plot
  | fillBetween
  | showCall
  deriving Repr, DecidableEq

/-- Script state: the event trace so far, and the one variable a claim
tracks (the string variable multiline; the numeric locals feed only the
untracked plotting payloads). -/
structure PyState where
  trace : List Ev
  multiline : Option String
  deriving Repr, DecidableEq

def PyState.init : PyState := { trace := [], multiline := none }

def emit (e : Ev) (st : PyState) : PyState :=
  { st with trace := st.trace ++ [e] }

/-- Python print with one argument: writes the argument and a newline. -/
def pyPrint (line : String) (st : PyState) : PyState :=
  emit (.out (line ++ "\n")) st

/-- Python print with two arguments: joins them with a single space. -/
def pyPrint2 (a b : String) (st : PyState) : PyState :=
  pyPrint (a ++ " " ++ b) st

/-- Python string repetition, s * n. -/
def pyStrMul (s : String) : Nat → String
  | 0 => ""
  | n + 1 => s ++ pyStrMul s n

/-- The stdout stream: concatenation of all out events of the trace. -/
def stdout (st : PyState) : String :=
  String.join (st.trace.filterMap fun e =>
    match e with
    | .out s => some s
    | _ => none)

/-- Helper for completedLines: splits a character stream at newline
characters, keeping only the newline-terminated chunks. -/
def completedLinesAux : List Char → List Char → List String
  | _, [] => []
  | acc, c :: cs =>
    if c = '\n' then String.mk acc.reverse :: completedLinesAux [] cs
    else completedLinesAux (c :: acc) cs

/-- The complete (newline-terminated) lines of a stream, in order. -/
def completedLines (s : String) : List String :=
  completedLinesAux [] s.data

/-- p is a leading segment of l. -/
def leadsIn : List Char → List Char → Bool
  | [], _ => true
  | _ :: _, [] => false
  | a :: as, b :: bs => a = b && leadsIn as bs

/-- p occurs contiguously somewhere in l. -/
def occursIn (p : List Char) : List Char → Bool
  | [] => leadsIn p []
  | l@(_ :: t) => leadsIn p l || occursIn p t

/-! ## The statements of the script, in source order -/

/-- Line 6: print("hello world!") -/
def line6 (st : PyState) : PyState := pyPrint "hello world!" st

/-- Line 9: the bare expression 1+2. -/
def line9_expr : Int := 1 + 2

/-- Line 9 as a statement: in a plain script run the value of a bare
expression statement is discarded and nothing is printed. -/
def line9 (st : PyState) : PyState := st

/-- Lines 12-14: the three-line string literal assigned to multiline. -/
def multilineLiteral : String :=
  "Multi-line commands without\nindent can be executed with the cursor\nanywhere in the block"

/-- Lines 12-14: multiline = the literal. -/
def line12 (st : PyState) : PyState := { st with multiline := some multilineLiteral }

/-- Line 18: the iteration sequence 5,4,3,2,1 of the wait loop. -/
def waitSeq : List Nat := [5, 4, 3, 2, 1]

/-- Lines 19-20: one wait-loop iteration prints Wait followed by the
star string, then sleeps one second. -/
def waitLoopBody (st : PyState) (i : Nat) : PyState :=
  emit (.sleep 1) (pyPrint2 "Wait" (pyStrMul "* " i) st)

/-- Lines 18-20: the wait loop. -/
def waitLoop (st : PyState) : PyState := waitSeq.foldl waitLoopBody st

/-- Python true division on integers: raises ZeroDivisionError when the
divisor is zero, otherwise yields the exact quotient. -/
def pyTrueDiv (a b : Int) : Except PyError Rat :=
  if b = 0 then .error .zeroDivisionError else .ok ((a : Rat) / (b : Rat))

/-- Line 22: the constant guard of the conditional. -/
def line22_guard : Bool := true

/-- Line 23: print("We divide 5 by zero:") -/
def line23 (st : PyState) : PyState := pyPrint "We divide 5 by zero:" st

/-- Line 24: print("The result is:", 5 / 0).  Python evaluates the
arguments before the call writes anything, so the raise aborts the
statement with no output. -/
def line24 (st : PyState) : PyState × Option PyError :=
  match pyTrueDiv 5 0 with
  | .error e => (st, some e)
  | .ok v => (pyPrint2 "The result is:" (toString v) st, none)

/-- Lines 22-24: the conditional block guarded by True. -/
def ifBlock (st : PyState) : PyState × Option PyError :=
  if line22_guard then line24 (line23 st) else (st, none)

/-- Line 31: fig = plt.figure() -/
def line31 (st : PyState) : PyState := emit .figure st

/-- Line 33: the iteration sequence 1,2,3 of the first figure loop. -/
def fig1Seq : List Nat := [1, 2, 3]

/-- Lines 34-36: one first-figure iteration issues one plot call and
one fill_between call (their numeric payloads are untracked). -/
def fig1Body (st : PyState) (_i : Nat) : PyState :=
  emit .fillBetween (emit .plot st)

/-- Lines 33-36: the first figure loop. -/
def fig1Loop (st : PyState) : PyState := fig1Seq.foldl fig1Body st

/-- Line 37: plt.show() -/
def line37 (st : PyState) : PyState := emit .showCall st

/-- Lines 31-37: the whole first plotting section. -/
def figure1Section (st : PyState) : PyState := line37 (fig1Loop (line31 st))

/-- Line 42: n = 100 (the pseudo-random r0, r1 feed only untracked
plotting payloads). -/
def fig2_n : Nat := 100

/-- Lines 44-47: one second-figure iteration issues one plot call. -/
def fig2Body (st : PyState) (_i : Nat) : PyState := emit .plot st

/-- Lines 43-47: the second figure loop, for i in range(n). -/
def fig2Loop (st : PyState) : PyState := (List.range fig2_n).foldl fig2Body st

/-- Lines 41-48: the whole second plotting section, ending in plt.show(). -/
def figure2Section (st : PyState) : PyState :=
  emit .showCall (fig2Loop (emit .figure st))

/-! ## Sequential composition with error propagation -/

/-- Run the next statement only when no exception has been raised. -/
def andThen (s : PyState × Option PyError) (f : PyState → PyState × Option PyError) :
    PyState × Option PyError :=
  match s with
  | (st, none) => f st
  | (st, some e) => (st, some e)

def liftStmt (f : PyState → PyState) : PyState → PyState × Option PyError :=
  fun st => (f st, none)

/-- The whole script, top to bottom (imports are effect-free). -/
def runScript : PyState × Option PyError :=
  andThen (andThen (andThen (andThen (andThen (andThen
    (liftStmt line6 PyState.init)
    (liftStmt line9))
    (liftStmt line12))
    (liftStmt waitLoop))
    ifBlock)
    (liftStmt figure1Section))
    (liftStmt figure2Section)

/-- The script reads no command-line arguments, no environment
variables and no files: its source contains no reference to sys.argv,
os.environ or any file operation, so its behaviour is one and the same
function of those inputs. -/
def runScriptWith (_args : List String) (_env : String → Option String)
    (_fs : String → Option String) : PyState × Option PyError :=
  runScript

/-! ## Helper lemmas -/

theorem foldl_fig2Body_trace (l : List Nat) (st : PyState) :
    (l.foldl fig2Body st).trace = st.trace ++ List.replicate l.length Ev.plot := by
  induction l generalizing st with
  | nil => simp
  | cons a t ih =>
      simp [List.foldl, fig2Body, emit, ih, List.replicate_succ, List.append_assoc]

theorem foldl_fig2Body_multiline (l : List Nat) (st : PyState) :
    (l.foldl fig2Body st).multiline = st.multiline := by
  induction l generalizing st with
  | nil => rfl
  | cons a t ih => simp [List.foldl, fig2Body, emit, ih]

theorem fig2Loop_multiline (st : PyState) : (fig2Loop st).multiline = st.multiline :=
  foldl_fig2Body_multiline _ _

theorem emit_multiline (e : Ev) (st : PyState) : (emit e st).multiline = st.multiline := rfl

theorem figure1Section_multiline (st : PyState) :
    (figure1Section st).multiline = st.multiline := rfl

theorem fig1Loop_trace (st : PyState) :
    (fig1Loop st).trace =
      st.trace ++ [Ev.plot, Ev.fillBetween, Ev.plot, Ev.fillBetween, Ev.plot, Ev.fillBetween] := by
  simp [fig1Loop, fig1Seq, List.foldl, fig1Body, emit, List.append_assoc]

theorem figure1Section_trace (st : PyState) :
    (figure1Section st).trace =
      st.trace ++ [Ev.figure, Ev.plot, Ev.fillBetween, Ev.plot, Ev.fillBetween,
        Ev.plot, Ev.fillBetween, Ev.showCall] := by
  simp [figure1Section, line37, line31, emit, fig1Loop_trace, List.append_assoc]

theorem figure2Section_trace (st : PyState) :
    (figure2Section st).trace =
      st.trace ++ (Ev.figure :: List.replicate 100 Ev.plot ++ [Ev.showCall]) := by
  simp [figure2Section, fig2Loop, fig2_n, emit, foldl_fig2Body_trace, List.append_assoc]

theorem waitLoop_trace (st : PyState) :
    (waitLoop st).trace = st.trace ++
      [Ev.out "Wait * * * * * \n", Ev.sleep 1,
       Ev.out "Wait * * * * \n", Ev.sleep 1,
       Ev.out "Wait * * * \n", Ev.sleep 1,
       Ev.out "Wait * * \n", Ev.sleep 1,
       Ev.out "Wait * \n", Ev.sleep 1] := by
  simp [waitLoop, waitSeq, List.foldl, waitLoopBody, pyPrint2, pyPrint, emit,
    List.append_assoc]
  exact ⟨rfl, rfl, rfl, rfl, rfl⟩

/-! ## Claim theorems -/

/-- C1 counterexample: executed from top to bottom, the script reaches
neither plt.show() call: the full run ends in the unhandled division by
zero, and its trace contains zero show events. -/
theorem script_never_reaches_show :
    runScript.1.trace.count Ev.showCall = 0 ∧
    runScript.2 = some PyError.zeroDivisionError :=
  ⟨rfl, rfl⟩

/-- C1 (amended): executed from top to bottom, the script halts at the
unhandled division by zero before the plotting code, so neither
plt.show() call is reached; the two plotting sections themselves, when
executed (as in block-wise interactive execution), construct the two
figures and reach both plt.show() calls, adding exactly two show events
from any state. -/
theorem plot_sections_reach_both_shows :
    runScript.2 = some PyError.zeroDivisionError ∧
    runScript.1.trace.count Ev.showCall = 0 ∧
    ∀ st : PyState,
      (figure2Section (figure1Section st)).trace.count Ev.showCall =
        st.trace.count Ev.showCall + 2 := by
  refine ⟨rfl, rfl, fun st => ?_⟩
  rw [figure2Section_trace, figure1Section_trace, List.append_assoc, List.count_append]
  congr 1

/-- C2: evaluating 5 / 0 raises ZeroDivisionError, and the script
contains no handler: the error escapes the full top-to-bottom run as
the final, uncaught result. -/
theorem division_error_propagates :
    pyTrueDiv 5 0 = Except.error PyError.zeroDivisionError ∧
    runScript.2 = some PyError.zeroDivisionError :=
  ⟨rfl, rfl⟩

/-- C3: the single-expression line 1+2 evaluates to 3. -/
theorem one_plus_two_eq_three : line9_expr = 3 := rfl

/-- C4: the greeting statement writes exactly the string
hello world! followed by a newline to stdout and has no other effect:
from any state it appends that one output event to the trace and leaves
the tracked variable unchanged. -/
theorem hello_world_output :
    stdout (line6 PyState.init) = "hello world!\n" ∧
    ∀ st : PyState,
      (line6 st).trace = st.trace ++ [Ev.out "hello world!\n"] ∧
      (line6 st).multiline = st.multiline :=
  ⟨rfl, fun _ => ⟨rfl, rfl⟩⟩

/-- C5: the wait loop iterates over the fixed descending sequence
5,4,3,2,1, hence terminates after exactly 5 iterations, and on each
iteration first prints its message and then sleeps one second: from any
state it appends exactly these ten events, print and sleep alternating. -/
theorem wait_loop_five_iterations :
    waitSeq = [5, 4, 3, 2, 1] ∧
    ∀ st : PyState, (waitLoop st).trace = st.trace ++
      [Ev.out "Wait * * * * * \n", Ev.sleep 1,
       Ev.out "Wait * * * * \n", Ev.sleep 1,
       Ev.out "Wait * * * \n", Ev.sleep 1,
       Ev.out "Wait * * \n", Ev.sleep 1,
       Ev.out "Wait * \n", Ev.sleep 1] :=
  ⟨rfl, waitLoop_trace⟩

/-- C6: the first figure loop runs exactly 3 iterations (over 1,2,3),
each issuing one plot call and one fill_between call; the second figure
loop runs exactly 100 iterations (over range(n) with n = 100), each
issuing one plot call. -/
theorem figure_loop_counts :
    fig1Seq = [1, 2, 3] ∧ fig2_n = 100 ∧ (List.range fig2_n).length = 100 ∧
    (∀ st : PyState, (fig1Loop st).trace = st.trace ++
      [Ev.plot, Ev.fillBetween, Ev.plot, Ev.fillBetween, Ev.plot, Ev.fillBetween]) ∧
    (∀ st : PyState, (fig2Loop st).trace = st.trace ++ List.replicate 100 Ev.plot) := by
  refine ⟨rfl, rfl, rfl, fig1Loop_trace, fun st => ?_⟩
  simpa [fig2Loop, fig2_n] using foldl_fig2Body_trace (List.range 100) st

/-- C7: after its assignment the variable multiline holds exactly the
three-line literal, and no later statement modifies it: the full run
ends with that value, and every statement after the assignment (the
wait loop, the conditional block, both plotting sections) preserves the
variable from any state. -/
theorem multiline_value_stable :
    multilineLiteral =
      "Multi-line commands without\nindent can be executed with the cursor\nanywhere in the block" ∧
    runScript.1.multiline = some multilineLiteral ∧
    (∀ st : PyState, (waitLoop st).multiline = st.multiline) ∧
    (∀ st : PyState, (ifBlock st).1.multiline = st.multiline) ∧
    (∀ st : PyState, (figure2Section (figure1Section st)).multiline = st.multiline) := by
  refine ⟨rfl, rfl, fun _ => rfl, fun _ => rfl, fun st => ?_⟩
  simp only [figure2Section, emit_multiline, fig2Loop_multiline, figure1Section_multiline]

/-- C8: the script consumes no command-line arguments, environment
variables or files, so any two runs differing only in those inputs are
identical, and the stdout produced up to and including the point where
the division by zero is raised is exactly the greeting line, the five
Wait lines and the We-divide line. -/
theorem output_independent_of_inputs :
    (∀ (a₁ a₂ : List String) (e₁ f₁ e₂ f₂ : String → Option String),
      runScriptWith a₁ e₁ f₁ = runScriptWith a₂ e₂ f₂) ∧
    stdout runScript.1 =
      "hello world!\nWait * * * * * \nWait * * * * \nWait * * * \nWait * * \nWait * \nWe divide 5 by zero:\n" ∧
    runScript.2 = some PyError.zeroDivisionError :=
  ⟨fun _ _ _ _ _ _ => rfl, rfl, rfl⟩

/-- C9: in print(The result is:, 5 / 0) the division is evaluated
before anything is written, so the statement aborts with no output from
any state; in the full run the text The result is: never occurs on
stdout and the last complete line at the moment of the error is the
We-divide line. -/
theorem no_partial_print_on_error :
    (∀ st : PyState, line24 st = (st, some PyError.zeroDivisionError)) ∧
    occursIn "The result is:".data (stdout runScript.1).data = false ∧
    (completedLines (stdout runScript.1)).getLast? = some "We divide 5 by zero:" :=
  ⟨fun _ => rfl, by decide, by decide⟩

/-- C10: the wait loop prints exactly five complete lines, the k-th
line (k = 1..5, index j = k-1) being Wait followed by a space and
6-k copies of the two-character star-space string, descending from five
stars to one. -/
theorem wait_lines_star_counts :
    completedLines (stdout (waitLoop PyState.init)) =
      (List.range 5).map (fun j => "Wait " ++ pyStrMul "* " (6 - (j + 1))) ∧
    completedLines (stdout (waitLoop PyState.init)) =
      ["Wait * * * * * ", "Wait * * * * ", "Wait * * * ", "Wait * * ", "Wait * "] := by
  constructor <;> decide
